import Mathlib

/-
Verification of the fedora-python/importpatches tooling
(importpatches.py and exportpatches.py) against its specification.

The Python sources are shallowly embedded below: every stateful loop is
translated into explicit structural recursion, every call to `exit(...)`
becomes an `Except.error`, and the external git/rpm invocations are
abstracted as input data (their observable outputs become parameters).
Strings are modelled with Lean `String`s; the commit messages, spec files
and patch file contents handled by the tool are LF-terminated text, so
line splitting is modelled on the LF character.
-/

/-! ## Python string primitives used by the scripts -/

/-- Characters stripped by Python `str.strip` / `str.rstrip` (ASCII whitespace). -/
def isPySpace (c : Char) : Bool :=
  c == ' ' || c == '\t' || c == '\n' || c == '\r' || c == '\x0b' || c == '\x0c'

/-- Python `str.lstrip()`. -/
def pylstrip (s : String) : String :=
  String.mk (s.data.dropWhile isPySpace)

/-- Python `str.rstrip()`. -/
def pyrstrip (s : String) : String :=
  String.mk ((s.data.reverse.dropWhile isPySpace).reverse)

/-- Python `str.strip()`. -/
def pystrip (s : String) : String :=
  pyrstrip (pylstrip s)

/-- Python `str.lower()` on the ASCII text the scripts handle. -/
def pyLower (s : String) : String :=
  String.mk (s.data.map Char.toLower)

/-- Python `s[:n]` (also `str.take`): the first `n` characters. -/
def strTake (s : String) (n : Nat) : String :=
  String.mk (s.data.take n)

/-- Python `s[n:]`: the characters from index `n` on. -/
def strDrop (s : String) (n : Nat) : String :=
  String.mk (s.data.drop n)

/-- Python `s.startswith(pfx)`. -/
def strStarts (s pfx : String) : Bool :=
  pfx.data.isPrefixOf s.data

/-- Python `s.endswith(sfx)`. -/
def strEnds (s sfx : String) : Bool :=
  sfx.data.reverse.isPrefixOf s.data.reverse

/-- Python `'\n'.join(...)`. -/
def strJoinNL : List String → String
  | [] => ""
  | [x] => x
  | x :: rest => x ++ "\n" ++ strJoinNL rest

/-- `removeprefix` from importpatches.py / exportpatches.py (PEP-616 backport):
returns `s` with `pfx` removed when `s` starts with `pfx`, else `s` unchanged.
(The source spells it `removeprefix`.) -/
def removePre (s pfx : String) : String :=
  if strStarts s pfx then strDrop s pfx.length else s

/-- Helper for `splitlines`: accumulate characters of the current line. -/
def splitlinesAux : List Char → List Char → List String
  | [], acc => if acc.isEmpty then [] else [String.mk acc.reverse]
  | c :: rest, acc =>
      if c = '\n' then String.mk acc.reverse :: splitlinesAux rest []
      else splitlinesAux rest (c :: acc)

/-- Python `str.splitlines()` on LF-terminated text:
`"a\nb"` and `"a\nb\n"` both give `["a", "b"]`, `""` gives `[]`. -/
def splitlines (s : String) : List String :=
  splitlinesAux s.data []

/-- Python `message.partition('\n')`: the part before the first LF and the
part after it (empty when there is no LF). -/
def pypartition (s : String) : String × String :=
  let pre := s.data.takeWhile (· != '\n')
  if pre.length == s.data.length then (s, "")
  else (String.mk pre, String.mk (s.data.drop (pre.length + 1)))

/-- Value of a decimal digit string, as Python `int(...)` computes it. -/
def digitsToNat (s : String) : Nat :=
  s.data.foldl (fun n c => n * 10 + (c.toNat - 48)) 0

/-- Python `f'{n:05d}'`: decimal rendering left-padded with zeros to width 5. -/
def pad5 (n : Nat) : String :=
  let s := toString n
  if s.length < 5 then String.mk (List.replicate (5 - s.length) '0') ++ s else s

/-- Python `s.rjust(5, '0')` as used on the patch-number string in
exportpatches.py. -/
def rjust5 (s : String) : String :=
  if s.length ≥ 5 then s else String.mk (List.replicate (5 - s.length) '0') ++ s

/-- Concatenation of a list of strings, in order (models consecutive
`outfile.write` / `''.join` calls). -/
def concatAll : List String → String
  | [] => ""
  | s :: rest => s ++ concatAll rest

/-! ## Spec patch-section markers (importpatches.py lines 23-29) -/

/-- `PATCH_SECTION_START`: the canonical start-marker spelling. -/
def PATCH_SECTION_START : String :=
  "# (Patches taken from github.com/fedora-python/cpython)"

/-- `PATCH_SECTION_STARTS`: all recognized start-marker spellings. -/
def PATCH_SECTION_STARTS : List String :=
  [PATCH_SECTION_START,
   "# 00001 #",
   "# Modules/Setup.dist is ultimately used by the \"makesetup\" script to construct"]

/-- `PATCH_SECTION_END`: the end marker. -/
def PATCH_SECTION_END : String := "# (New patches go here ^^^)"

/-- A line whose `rstrip` is one of the recognized start markers
(`line.rstrip() in PATCH_SECTION_STARTS`). -/
def isStartLine (l : String) : Bool :=
  PATCH_SECTION_STARTS.contains (pyrstrip l)

/-- A line whose `rstrip` equals the end marker
(`line.rstrip() == PATCH_SECTION_END`). -/
def isEndLine (l : String) : Bool :=
  pyrstrip l == PATCH_SECTION_END

/-! ## The spec-section rewrite (importpatches.py `main`, lines 354-377)

The loop writes to a staging file; its state is the pair of flags
`echoing`/`found_start` plus the text written so far.  `exit(...)` calls
become errors.  The input is the spec file as the list of its lines (each
line carrying its trailing newline, as Python file iteration yields them);
`body` is the concatenation of the generated `patches_section` blocks. -/

inductive RewriteError where
  | sectionNotFound
  | duplicateSection
  | sectionUnterminated
deriving DecidableEq, Repr

/-- The line loop of the spec rewrite.  Per source line: an end-marker line
turns echoing back on (and is itself echoed); a start-marker line writes the
canonical start marker, errors if a start was already found, then writes the
new section body followed by a blank line, and turns echoing off (the marker
line itself is not echoed); any other line is echoed iff echoing is on.
After the loop: no start marker seen is `sectionNotFound`, echoing still off
is `sectionUnterminated`. -/
def rewriteLoop (body : String) : List String → Bool → Bool → String →
    Except RewriteError String
  | [], echoing, foundStart, out =>
      if !foundStart then .error .sectionNotFound
      else if !echoing then .error .sectionUnterminated
      else .ok out
  | line :: rest, echoing, foundStart, out =>
      if isStartLine line then
        if foundStart then .error .duplicateSection
        else rewriteLoop body rest false true
          (out ++ PATCH_SECTION_START ++ "\n" ++ body ++ "\n")
      else
        if isEndLine line then rewriteLoop body rest true foundStart (out ++ line)
        else rewriteLoop body rest echoing foundStart
          (if echoing then out ++ line else out)

/-- The spec-section rewrite: run the loop from its initial state
(`echoing = True`, `found_start = False`, nothing written). -/
def specRewrite (specLines : List String) (body : String) :
    Except RewriteError String :=
  rewriteLoop body specLines true false ""

/-- The working directory visible to importpatches: the spec file text and
the names of the files in the current directory. -/
structure WorkDir where
  specText : String
  files : List String
deriving DecidableEq, Repr

/-- Helper for `linesOfFile`. -/
def splitKeepNLAux : List Char → List Char → List String
  | [], acc => if acc.isEmpty then [] else [String.mk acc.reverse]
  | c :: rest, acc =>
      if c = '\n' then String.mk (c :: acc).reverse :: splitKeepNLAux rest []
      else splitKeepNLAux rest (c :: acc)

/-- Python text-file iteration: the lines of a file, each keeping its
trailing newline (the last line may lack one). -/
def linesOfFile (s : String) : List String :=
  splitKeepNLAux s.data []

/-- The tail of importpatches `main` (lines 354-387): rewrite the spec into
the staging directory, and only when the rewrite succeeded delete every
`*.patch` file in the working directory and move the staged files
(`newPatchFiles` and the new spec text) in.  On a rewrite error the process
exits before touching the working directory, which is modelled by returning
the working directory unchanged together with the error. -/
def finishImport (body : String) (newPatchFiles : List String) (w : WorkDir) :
    WorkDir × Option RewriteError :=
  match specRewrite (linesOfFile w.specText) body with
  | .error e => (w, some e)
  | .ok newSpec =>
      (⟨newSpec, (w.files.filter (fun f => !(strEnds f ".patch"))) ++ newPatchFiles⟩,
       none)

/-! ## Patch identity resolution and comment building
(importpatches.py `handle_patch`, lines 60-130) -/

/-- `PATCH_NUMBER_RE.match(summary)` for the regex `^(\d+):`: when the
summary starts with one or more decimal digits followed by a colon, the
value of that digit group. -/
def numColonHead (s : String) : Option Nat :=
  let ds := s.data.takeWhile Char.isDigit
  if ds.isEmpty then none
  else if (s.data.drop ds.length).head? == some ':' then
    some (digitsToNat (String.mk ds))
  else none

/-- `re.sub(PATCH_NUMBER_RE, '', summary)`: remove a leading `digits:` run
when present (the regex is anchored, so at most one substitution). -/
def stripNumColon (s : String) : String :=
  let ds := s.data.takeWhile Char.isDigit
  if !ds.isEmpty && ((s.data.drop ds.length).head? == some ':') then
    strDrop s (ds.length + 1)
  else s

/-- `FLIENAME_SAFE_RE` (sic): `^[a-zA-Z0-9._-]+$`. -/
def filenameSafe (s : String) : Bool :=
  !s.data.isEmpty
    && s.data.all (fun c => c.isAlphanum || c == '.' || c == '_' || c == '-')

/-- `SPECIAL_PATCH_NUMBERS`: historical filename-to-number fallback table. -/
def SPECIAL_PATCH_NUMBERS : List (String × Nat) :=
  [("python-2.7.1-config.patch", 0),
   ("python-2.6-rpath.patch", 16),
   ("python-2.6.4-distutils-rpath.patch", 17)]

/-- `re.search('\d{5,}', message)`: the first run of five or more decimal
digits in the text (the full run starting at the leftmost position where
five consecutive digits begin), if any. -/
def findDigitRun5 : List Char → Option (List Char)
  | [] => none
  | c :: rest =>
      let run := (c :: rest).takeWhile Char.isDigit
      if run.length ≥ 5 then some run else findDigitRun5 rest

/-- A slug character: the class `[a-z0-9_-]` of `slugify`'s regex. -/
def isSlugChar (c : Char) : Bool :=
  ('a' ≤ c && c ≤ 'z') || ('0' ≤ c && c ≤ '9') || c == '_' || c == '-'

/-- `re.sub('[^a-z0-9_-]+', '-', ...)`: replace every maximal run of
non-slug characters by a single hyphen.  `inRun` records whether the
previous character was part of such a run. -/
def subBadRuns : List Char → Bool → List Char
  | [], _ => []
  | c :: rest, inRun =>
      if isSlugChar c then c :: subBadRuns rest false
      else if inRun then subBadRuns rest true
      else '-' :: subBadRuns rest true

/-- Python `str.strip('-')`: drop hyphens from both ends. -/
def stripDashes (l : List Char) : List Char :=
  ((l.dropWhile (· == '-')).reverse.dropWhile (· == '-')).reverse

/-- `slugify` (importpatches.py lines 133-138): lower-case, collapse runs of
characters outside `[a-z0-9_-]` to single hyphens, strip hyphens at the ends. -/
def slugify (s : String) : String :=
  String.mk (stripDashes (subBadRuns (pyLower s).data false))

/-- A file name matching the glob `f'{number:05d}-*.patch'` used on the
current directory (line 70). -/
def matchesNumberGlob (number : Nat) (p : String) : Bool :=
  strStarts p (pad5 number ++ "-") && strEnds p ".patch"

/-- The identity block of `handle_patch` (lines 67-93): from the commit's
summary, full message and the `*.patch` files present in the current
directory, the patch number and the patch file name, or the `exit(...)`
message.  (The more-than-one-match message has literal braces in the
source: the `exit` call there lacks the `f` string marker.) -/
def resolveIdentity (commit_id summary message : String)
    (existingFiles : List String) : Except String (Nat × String) :=
  match numColonHead summary with
  | some number =>
      match existingFiles.filter (matchesNumberGlob number) with
      | [] => .ok (number, slugify summary ++ ".patch")
      | [p] => .ok (number, p)
      | _ => .error "More than one patch file matches \x7bnumber\x7d: \x7bpaths_msg\x7d"
  | none =>
      if strEnds summary ".patch" && filenameSafe summary then
        match findDigitRun5 message.data with
        | some run => .ok (digitsToNat (String.mk run), summary)
        | none =>
            match SPECIAL_PATCH_NUMBERS.lookup summary with
            | some n => .ok (n, summary)
            | none =>
                .error ("Cannot find patch number in " ++ strTake commit_id 9
                  ++ ": " ++ summary)
      else
        .error ("Cannot derive patch filename from " ++ strTake commit_id 9
          ++ ": " ++ summary)

/-- `line.lower().startswith('co-authored-by:')` (line 116). -/
def isCoAuthoredLine (l : String) : Bool :=
  strStarts (pyLower l) "co-authored-by:"

/-- `re.fullmatch(r'\(cherry picked from commit .{40}\)', line)` (line 118):
the whole line is the fixed 27-character opening, 40 arbitrary non-newline
characters, and a closing parenthesis. -/
def isCherryPickedLine (l : String) : Bool :=
  l.data.length == 68 && strStarts l "(cherry picked from commit " &&
    strEnds l ")" && !(l.data.contains '\n')

/-- The body-line filter of the non-`.patch` branch (lines 115-120). -/
def filterBodyLines (ls : List String) : List String :=
  ls.filter (fun l => !(isCoAuthoredLine l) && !(isCherryPickedLine l))

/-- The comment block of `handle_patch` (lines 109-120 plus the final
`'\n'.join(...).strip()` on line 128).  Note the branch condition is
`summary.endswith('.patch')`: the boilerplate-stripping branch is taken for
legacy filename-style summaries, and the prefix-stripping/filtering branch
for all other (numeric-prefixed) summaries. -/
def buildComment (summary message_body : String) (number : Nat) : String :=
  if strEnds summary ".patch" then
    pystrip (removePre (pystrip message_body) (pad5 number ++ " #\n"))
  else
    pystrip (strJoinNL
      (stripNumColon summary :: filterBodyLines (splitlines message_body)))

/-! ## The bundled-versions trailer (`process_rpmwheels_patch`, lines 141-157) -/

/-- `BUNDLED_VERSION_BLURB` (lines 34-39). -/
def BUNDLED_VERSION_BLURB : String :=
  "\n# The following versions of setuptools/pip are bundled when this patch is not applied.\n# The versions are written in Lib/ensurepip/__init__.py, this patch removes them.\n# When the bundled setuptools/pip wheel is updated, the patch no longer applies cleanly.\n# In such cases, the patch needs to be amended and the versions updated here:\n"

/-- `BUNDLED_VERSION_RE.match(line.strip())` for
`-_([A-Z]+)_VERSION = "([0-9.]+)"`: the name and version groups when the
stripped line starts with that shape. -/
def parseBundledVersion (line : String) : Option (String × String) :=
  let s := pystrip line
  if strStarts s "-_" then
    let r1 := s.data.drop 2
    let name := r1.takeWhile (fun c => 'A' ≤ c && c ≤ 'Z')
    if name.isEmpty then none
    else
      let r2 := r1.drop name.length
      if strStarts (String.mk r2) "_VERSION = \"" then
        let r3 := r2.drop 12
        let ver := r3.takeWhile (fun c => c.isDigit || c == '.')
        if ver.isEmpty then none
        else if (r3.drop ver.length).head? == some '\"' then
          some (String.mk name, String.mk ver)
        else none
      else none
  else none

/-- The version-collecting loop of `process_rpmwheels_patch`: a dictionary
insert per matching line, exiting when a name repeats. -/
def collectVersions : List String → List (String × String) →
    Except String (List (String × String))
  | [], acc => .ok acc
  | l :: rest, acc =>
      match parseBundledVersion l with
      | none => collectVersions rest acc
      | some (name, ver) =>
          if acc.any (fun p => p.1 == name) then
            .error ("Bundled version for " ++ name ++ " appears twice")
          else collectVersions rest (acc ++ [(name, ver)])

/-- Insertion into a list sorted by first component (ASCII-lexicographic,
as Python `sorted` orders the unique names). -/
def insertByName (p : String × String) : List (String × String) →
    List (String × String)
  | [] => [p]
  | q :: rest =>
      if decide (p.1 < q.1) then p :: q :: rest else q :: insertByName p rest

/-- Python `sorted(versions.items())` for the unique-name dictionary. -/
def sortByName (l : List (String × String)) : List (String × String) :=
  l.foldr insertByName []

/-- `process_rpmwheels_patch` over the lines of the generated patch file:
the trailer text, or the duplicate-name error. -/
def process_rpmwheels (patchLines : List String) : Except String String := do
  let vs ← collectVersions patchLines []
  .ok (BUNDLED_VERSION_BLURB ++ concatAll ((sortByName vs).map
    (fun p => "%global " ++ pyLower p.1 ++ "_version " ++ p.2 ++ "\n")))

/-! ## `handle_patch` assembled -/

/-- `PatchInformation` (importpatches.py lines 50-57). -/
structure PatchInformation where
  number : Nat
  patch_id : String
  comment : String
  filename : String
  trailer : String := ""
deriving DecidableEq, Repr

/-- The observable inputs of one commit as `handle_patch` consumes them:
the commit id, the output of `git show -s --format=%B` (the raw message),
the `git patch-id --stable` identifier of the formatted diff, and the lines
of the formatted patch file (read back only for patch 189). -/
structure CommitInput where
  commit_id : String
  showOutput : String
  patch_id : String
  patchFileLines : List String := []
deriving DecidableEq, Repr

/-- `handle_patch` (lines 60-130): strip the message, split off the summary,
resolve number and file name, build the comment, and compute the trailer
for patch 189; each `exit(...)` is an error. -/
def handle_patch (c : CommitInput) (existingFiles : List String) :
    Except String PatchInformation :=
  let message := pystrip c.showOutput
  let summary := (pypartition message).1
  let message_body := (pypartition message).2
  match resolveIdentity c.commit_id summary message existingFiles with
  | .error e => .error e
  | .ok (number, path) =>
      match (if number == 189 then process_rpmwheels c.patchFileLines
             else .ok "") with
      | .error e => .error e
      | .ok trailer =>
          .ok ⟨number, c.patch_id, buildComment summary message_body number,
               path, trailer⟩

/-! ## The import run (importpatches.py `main`, lines 330-352) -/

/-- The per-commit loop body over `reversed(log)`: handle each commit,
collecting the produced `PatchInformation` records in order (an error on
any commit aborts the whole run, as `exit` does). -/
def runPatches (existingFiles : List String) :
    List CommitInput → Except String (List PatchInformation)
  | [] => .ok []
  | c :: rest =>
      match handle_patch c existingFiles with
      | .error e => .error e
      | .ok pi =>
          match runPatches existingFiles rest with
          | .error e => .error e
          | .ok ps => .ok (pi :: ps)

/-- One import run: `log` is the `git rev-list head ^base` output (newest
commit first); the loop walks it reversed, i.e. oldest first (line 338). -/
def importRun (log : List CommitInput) (existingFiles : List String) :
    Except String (List PatchInformation) :=
  runPatches existingFiles log.reverse

/-- Helper for `escapePercents`: double each percent character. -/
def escPercChars : List Char → List Char
  | [] => []
  | c :: r => if c = '%' then '%' :: '%' :: escPercChars r else c :: escPercChars r

/-- `comment.replace('%', '%%')` (line 349). -/
def escapePercents (s : String) : String :=
  String.mk (escPercChars s.data)

/-- Lines 342-344: each comment line prefixed with `# ` (a bare `#` for an
empty line), joined with newlines. -/
def commentLines (comment : String) : String :=
  strJoinNL
    ((splitlines comment).map (fun l => if l = "" then "#" else "# " ++ l))

/-- Lines 345-351: the per-patch block of the new spec section.  The
dedented template is `"\n# NNNNN # <patch_id>\n%s\nPatch<n>: <file>\n"`,
`%s` replaced by the percent-escaped comment block; when a trailer is
present the block is right-stripped and the trailer appended. -/
def sectionFor (r : PatchInformation) : String :=
  let s := "\n# " ++ pad5 r.number ++ " # " ++ r.patch_id ++ "\n"
    ++ escapePercents (commentLines r.comment)
    ++ "\nPatch" ++ toString r.number ++ ": " ++ r.filename ++ "\n"
  if r.trailer = "" then s else pyrstrip s ++ r.trailer

/-- The full `patches_section` text handed to the spec rewrite
(`outfile.writelines(patches_section)`, line 369): the blocks concatenated
in the order the loop produced them. -/
def patchesSection (ps : List PatchInformation) : String :=
  concatAll (ps.map sectionFor)

/-! ## The export engine (exportpatches.py `main`, lines 203-298) -/

/-- One directive line of the spec-scanning loop (lines 205-219): for a
stripped line starting with `Patch`, either the extracted
(3-digit-number-string, file-reference) pair from
`re.match("^Patch[0-9]{3}", line)` and
`removeprefix(line, 'Patch[0-9]*: *', regex=True)`, or the
`"Patch number is missing."` fatal error when fewer than three digits
follow `Patch`; `none` for lines not starting with `Patch`. -/
def parsePatchLine (line : String) : Option (Except String (String × String)) :=
  let s := pystrip line
  if strStarts s "Patch" then
    let ds := (s.data.drop 5).take 3
    if ds.length == 3 && ds.all Char.isDigit then
      some (.ok (String.mk ds, stripDirectiveHead s))
    else some (.error "Patch number is missing.")
  else none
where
  /-- `re.sub('^Patch[0-9]*: *', '', line)`: drop `Patch`, a greedy digit
  run, a colon and following spaces; unchanged when that shape is absent. -/
  stripDirectiveHead (l : String) : String :=
    let r1 := l.data.drop 5
    let ds := r1.takeWhile Char.isDigit
    let r2 := r1.drop ds.length
    if r2.head? == some ':' then String.mk ((r2.drop 1).dropWhile (· == ' '))
    else l

/-- Python dict update `patches.update(**{k: v})`: overwrite the value of an
existing key in place, else append. -/
def dictUpdate (m : List (String × String)) (k v : String) :
    List (String × String) :=
  if m.any (fun p => p.1 == k) then
    m.map (fun p => if p.1 == k then (k, v) else p)
  else m ++ [(k, v)]

/-- The spec-scanning loop (lines 203-219) over the spec file's lines,
building the `patches` dictionary. -/
def parseSpecPatches : List String → List (String × String) →
    Except String (List (String × String))
  | [], acc => .ok acc
  | l :: rest, acc =>
      match parsePatchLine l with
      | none => parseSpecPatches rest acc
      | some (.error e) => .error e
      | some (.ok (k, v)) => parseSpecPatches rest (dictUpdate acc k v)

/-- The patch map exportpatches extracts from a spec file. -/
def collectPatches (lines : List String) : Except String (List (String × String)) :=
  parseSpecPatches lines []

/-- `re.compile(r"^[0-9]{5}:").match(msg)` (lines 284-285): the message
starts with exactly five ASCII digits followed by a colon. -/
def startsWithFiveDigitsColon (s : String) : Bool :=
  (s.data.take 5).length == 5 && (s.data.take 5).all Char.isDigit &&
    (s.data.drop 5).head? == some ':' 

/-- The commit-message fix-up after a successful `git am` (lines 278-289):
if the tip's message does not start with five digits and a colon, it is
replaced by the zero-padded patch number, `": "`, and the old message;
otherwise it is left untouched. -/
def amendMessage (patch_number : String) (message : String) : String :=
  if startsWithFiveDigitsColon message then message
  else rjust5 patch_number ++ ": " ++ message

/-- A commit of the upstream repository: its hash and its message. -/
structure Commit where
  id : String
  message : String
deriving DecidableEq, Repr

/-- The branch tip hash `git rev-parse HEAD` reads, with the history as the
list of commits from the tip down. -/
def tipId (hist : List Commit) : String :=
  ((hist.head?).map Commit.id).getD ""

/-- `git rev-parse HEAD^1`: the id of the tip's first parent. -/
def parentId (hist : List Commit) : String :=
  (((hist.drop 1).head?).map Commit.id).getD ""

/-- The repository history after `git am` prepended `newCommits` and the
message fix-up ran (lines 278-289): the tip commit's message goes through
`amendMessage` (amending creates the new commit id `amendId` when a rewrite
happens; the parent chain below the tip is untouched). -/
def applyAndAmend (patch_number : String) (newCommits : List Commit)
    (amendId : String) (hist : List Commit) : List Commit :=
  match newCommits ++ hist with
  | [] => []
  | top :: rest =>
      if startsWithFiveDigitsColon top.message then top :: rest
      else ⟨amendId, rjust5 patch_number ++ ": " ++ top.message⟩ :: rest

inductive ExportError where
  | applyError
  | multiCommitError
deriving DecidableEq, Repr

/-- The external outcome of one spec patch entry during export: the
directive's number string, the commits `git am` created (newest first;
`none` when `git am` failed), and the id the amend would mint. -/
structure PatchApply where
  patch_number : String
  amResult : Option (List Commit)
  amendId : String
deriving DecidableEq, Repr

/-- One iteration of the export loop (lines 262-298): record the tip,
apply (`git am` failure is the fatal apply error), fix up the message, then
compare the recorded tip with the new tip's first parent — a mismatch is
the fatal multiple-commits error.  Errors carry the repository history as
it stands at the failure: the engine performs no rollback. -/
def exportStep (p : PatchApply) (hist : List Commit) :
    Except (ExportError × List Commit) (List Commit) :=
  match p.amResult with
  | none => .error (.applyError, hist)
  | some nc =>
      let h2 := applyAndAmend p.patch_number nc p.amendId hist
      if tipId hist ≠ parentId h2 then .error (.multiCommitError, h2)
      else .ok h2

/-- The export loop over the spec's patch entries in spec-file order. -/
def exportLoop : List PatchApply → List Commit →
    Except (ExportError × List Commit) (List Commit)
  | [], hist => .ok hist
  | p :: rest, hist =>
      match exportStep p hist with
      | .error e => .error e
      | .ok h2 => exportLoop rest h2

/-! ## Lemmas about the spec-section rewrite loop -/

lemma end_not_start {l : String} (h : isEndLine l = true) : isStartLine l = false := by
  have he : pyrstrip l = PATCH_SECTION_END := by
    simpa [isEndLine] using h
  simp only [isStartLine, he]
  decide

lemma rewriteLoop_pre (body : String) (pre rest : List String) (found : Bool)
    (out : String) (h : ∀ l ∈ pre, isStartLine l = false) :
    rewriteLoop body (pre ++ rest) true found out
      = rewriteLoop body rest true found (out ++ concatAll pre) := by
  induction pre generalizing out with
  | nil => simp [concatAll, String.append_empty]
  | cons a t ih =>
      have ha : isStartLine a = false := h a (List.mem_cons_self a t)
      simp only [List.cons_append, rewriteLoop, ha, Bool.false_eq_true, if_false,
        if_true, ite_true, ite_self, List.append_eq]
      rw [ih (out ++ a) (fun l hl => h l (List.mem_cons_of_mem a hl))]
      rw [concatAll, ← String.append_assoc]

lemma rewriteLoop_nostart (body : String) (lines : List String) (echoing : Bool)
    (out : String) (h : ∀ l ∈ lines, isStartLine l = false) :
    rewriteLoop body lines echoing false out = .error .sectionNotFound := by
  induction lines generalizing echoing out with
  | nil => simp [rewriteLoop]
  | cons a t ih =>
      have ha : isStartLine a = false := h a (List.mem_cons_self a t)
      have ht : ∀ l ∈ t, isStartLine l = false :=
        fun l hl => h l (List.mem_cons_of_mem a hl)
      simp only [rewriteLoop, ha, Bool.false_eq_true, if_false]
      split
      · exact ih true (out ++ a) ht
      · exact ih echoing _ ht

lemma rewriteLoop_dup (body : String) (lines : List String) (echoing : Bool)
    (out : String) (h : ∃ l ∈ lines, isStartLine l = true) :
    rewriteLoop body lines echoing true out = .error .duplicateSection := by
  induction lines generalizing echoing out with
  | nil => simp at h
  | cons a t ih =>
      by_cases ha : isStartLine a = true
      · simp [rewriteLoop, ha]
      · rcases h with ⟨l, hl, hstart⟩
        rcases List.mem_cons.mp hl with rfl | hm
        · exact absurd hstart ha
        · simp only [rewriteLoop, ha, Bool.false_eq_true, if_false]
          split
          · exact ih true (out ++ a) ⟨l, hm, hstart⟩
          · exact ih echoing _ ⟨l, hm, hstart⟩

lemma rewriteLoop_unterminated (body : String) (mid : List String) (out : String)
    (h : ∀ l ∈ mid, isStartLine l = false ∧ isEndLine l = false) :
    rewriteLoop body mid false true out = .error .sectionUnterminated := by
  induction mid generalizing out with
  | nil => simp [rewriteLoop]
  | cons a t ih =>
      have ha := (h a (List.mem_cons_self a t)).1
      have he := (h a (List.mem_cons_self a t)).2
      simp only [rewriteLoop, ha, he, Bool.false_eq_true, if_false]
      exact ih out (fun l hl => h l (List.mem_cons_of_mem a hl))

lemma rewriteLoop_mid (body : String) (mid rest : List String) (out : String)
    (h : ∀ l ∈ mid, isStartLine l = false ∧ isEndLine l = false) :
    rewriteLoop body (mid ++ rest) false true out
      = rewriteLoop body rest false true out := by
  induction mid with
  | nil => simp
  | cons a t ih =>
      have ha := (h a (List.mem_cons_self a t)).1
      have he := (h a (List.mem_cons_self a t)).2
      simp only [List.cons_append, rewriteLoop, ha, he, Bool.false_eq_true,
        if_false]
      exact ih (fun l hl => h l (List.mem_cons_of_mem a hl))

lemma rewriteLoop_post (body : String) (post : List String) (out : String)
    (h : ∀ l ∈ post, isStartLine l = false) :
    rewriteLoop body post true true out = .ok (out ++ concatAll post) := by
  induction post generalizing out with
  | nil => simp [rewriteLoop, concatAll, String.append_empty]
  | cons a t ih =>
      have ha : isStartLine a = false := h a (List.mem_cons_self a t)
      simp only [rewriteLoop, ha, Bool.false_eq_true, if_false, if_true,
        ite_true, ite_self]
      rw [ih (out ++ a) (fun l hl => h l (List.mem_cons_of_mem a hl))]
      rw [concatAll, ← String.append_assoc]

/-- Claim C1: the patch-section rewrite fails with `sectionNotFound` when no
recognized start-marker line is present, with `duplicateSection` when more
than one start-marker line is present, and with `sectionUnterminated` when
the (unique) start marker is not followed by an end-marker line; and
whenever the rewrite fails, the spec file and the patch files of the
working directory are left unmodified (`finishImport` returns the working
directory unchanged). -/
theorem c1_rewrite_error_cases (body : String) :
    (∀ lines, (∀ l ∈ lines, isStartLine l = false) →
      specRewrite lines body = .error .sectionNotFound)
    ∧ (∀ pre s mid, isStartLine s = true → (∀ l ∈ pre, isStartLine l = false) →
        (∃ l ∈ mid, isStartLine l = true) →
        specRewrite (pre ++ s :: mid) body = .error .duplicateSection)
    ∧ (∀ pre s mid, isStartLine s = true → (∀ l ∈ pre, isStartLine l = false) →
        (∀ l ∈ mid, isStartLine l = false ∧ isEndLine l = false) →
        specRewrite (pre ++ s :: mid) body = .error .sectionUnterminated)
    ∧ (∀ (npf : List String) (w : WorkDir) (e : RewriteError),
        specRewrite (linesOfFile w.specText) body = .error e →
        finishImport body npf w = (w, some e)) := by
  refine ⟨?_, ?_, ?_, ?_⟩
  · intro lines h
    exact rewriteLoop_nostart body lines true "" h
  · intro pre s mid hs hpre hmid
    unfold specRewrite
    rw [rewriteLoop_pre body pre (s :: mid) false "" hpre]
    simp only [rewriteLoop, hs, if_true, Bool.false_eq_true, if_false, ite_true]
    exact rewriteLoop_dup body mid false _ hmid
  · intro pre s mid hs hpre hmid
    unfold specRewrite
    rw [rewriteLoop_pre body pre (s :: mid) false "" hpre]
    simp only [rewriteLoop, hs, if_true, Bool.false_eq_true, if_false, ite_true]
    exact rewriteLoop_unterminated body mid _ hmid
  · intro npf w e h
    simp [finishImport, h]

/-- Witness for C1 at concrete inputs: a spec with no marker, one with two
start markers, one with an unterminated section, and an unchanged working
directory after a failed rewrite. -/
theorem c1_rewrite_error_cases_witness :
    specRewrite ["Name: x\n"] "B" = .error .sectionNotFound
    ∧ specRewrite ["# 00001 #\n", "# 00001 #\n"] "B" = .error .duplicateSection
    ∧ specRewrite ["# 00001 #\n"] "B" = .error .sectionUnterminated
    ∧ finishImport "B" ["p.patch"] ⟨"Name: x\n", ["a.patch", "b.spec"]⟩
        = (⟨"Name: x\n", ["a.patch", "b.spec"]⟩, some .sectionNotFound) := by
  obtain ⟨h1, h2, h3, h4⟩ := c1_rewrite_error_cases "B"
  refine ⟨h1 ["Name: x\n"] (by decide), ?_, ?_, ?_⟩
  · have h := h2 [] "# 00001 #\n" ["# 00001 #\n"] (by decide) (by decide)
      ⟨"# 00001 #\n", List.mem_singleton.mpr rfl, by decide⟩
    simpa using h
  · have h := h3 [] "# 00001 #\n" [] (by decide) (by decide) (by decide)
    simpa using h
  · exact h4 ["p.patch"] ⟨"Name: x\n", ["a.patch", "b.spec"]⟩ .sectionNotFound
      (h1 (linesOfFile "Name: x\n") (by decide))

/-- Claim C2: when the spec has exactly one start-marker line (in any of
the accepted spellings) followed later by an end-marker line, the rewrite
succeeds and the result is the lines before the start marker byte-for-byte,
then the canonical start-marker spelling, the new section body and a blank
line, then the end-marker line as-is and all following lines byte-for-byte.
(The lines strictly between the start marker and the first subsequent end
marker are dropped — they are the old section.) -/
theorem c2_rewrite_splice (body : String) (pre mid post : List String)
    (s e : String) (hs : isStartLine s = true) (he : isEndLine e = true)
    (hpre : ∀ l ∈ pre, isStartLine l = false)
    (hmid : ∀ l ∈ mid, isStartLine l = false ∧ isEndLine l = false)
    (hpost : ∀ l ∈ post, isStartLine l = false) :
    specRewrite (pre ++ s :: (mid ++ e :: post)) body =
      .ok (concatAll pre ++ (PATCH_SECTION_START ++ "\n" ++ body ++ "\n")
        ++ (e ++ concatAll post)) := by
  unfold specRewrite
  rw [rewriteLoop_pre body pre (s :: (mid ++ e :: post)) false "" hpre]
  simp only [rewriteLoop, hs, if_true, Bool.false_eq_true, if_false, ite_true]
  rw [rewriteLoop_mid body mid (e :: post) _ hmid]
  simp only [rewriteLoop, end_not_start he, he, Bool.false_eq_true, if_false,
    if_true, ite_true]
  rw [rewriteLoop_post body post _ hpost]
  simp [String.empty_append, String.append_assoc]

/-- Witness for C2: a five-line spec with a legacy start spelling is
rewritten to the canonical spelling with preamble and trailer intact. -/
theorem c2_rewrite_splice_witness :
    specRewrite
      ["Name: x\n", "# 00001 #\n", "old\n", "# (New patches go here ^^^)\n",
       "rest\n"] "BODY"
      = .ok ("Name: x\n# (Patches taken from github.com/fedora-python/cpython)\nBODY\n# (New patches go here ^^^)\nrest\n") := by
  have h := c2_rewrite_splice "BODY" ["Name: x\n"] ["old\n"] ["rest\n"]
    "# 00001 #\n" "# (New patches go here ^^^)\n"
    (by decide) (by decide) (by decide) (by decide) (by decide)
  exact h.trans (congrArg Except.ok (by decide))

deriving instance DecidableEq for Except

/-! ## Extraction lemmas for `handle_patch` and the import run -/

/-- The number `handle_patch` resolves for a commit (0 when resolution
fails; total companion of `resolveIdentity` for stating run-level facts). -/
def resolveNumberD (c : CommitInput) (existing : List String) : Nat :=
  match resolveIdentity c.commit_id (pypartition (pystrip c.showOutput)).1
      (pystrip c.showOutput) existing with
  | .ok np => np.1
  | .error _ => 0

lemma handle_patch_ok_shape (c : CommitInput) (existing : List String)
    (pi : PatchInformation) (h : handle_patch c existing = .ok pi) :
    ∃ n p t,
      resolveIdentity c.commit_id (pypartition (pystrip c.showOutput)).1
        (pystrip c.showOutput) existing = .ok (n, p)
      ∧ pi = ⟨n, c.patch_id,
          buildComment (pypartition (pystrip c.showOutput)).1
            (pypartition (pystrip c.showOutput)).2 n, p, t⟩ := by
  simp only [handle_patch] at h
  split at h
  · simp at h
  · rename_i n p heq
    split at h
    · simp at h
    · rename_i t htr
      simp only [Except.ok.injEq] at h
      exact ⟨n, p, t, heq, h.symm⟩

lemma handle_patch_number (c : CommitInput) (existing : List String)
    (pi : PatchInformation) (h : handle_patch c existing = .ok pi) :
    pi.number = resolveNumberD c existing := by
  obtain ⟨n, p, t, hres, hpi⟩ := handle_patch_ok_shape c existing pi h
  subst hpi
  simp [resolveNumberD, hres]

lemma runPatches_numbers (existing : List String) :
    ∀ (cs : List CommitInput) (ps : List PatchInformation),
      runPatches existing cs = .ok ps →
      ps.map PatchInformation.number = cs.map (fun c => resolveNumberD c existing)
  | [], ps, h => by
      simp only [runPatches, Except.ok.injEq] at h
      subst h; simp
  | c :: rest, ps, h => by
      simp only [runPatches] at h
      split at h
      · simp at h
      · rename_i pi hpi
        split at h
        · simp at h
        · rename_i ps2 hps2
          simp only [Except.ok.injEq] at h
          subst h
          simp only [List.map_cons, List.map]
          rw [handle_patch_number c existing pi hpi,
            runPatches_numbers existing rest ps2 hps2]

/-- Claim C3 as stated is false: for the commit summary `"00042: Fix thing"`
with no existing `00042-*.patch` file, the resolver returns number 42 but the
synthesized file name is `00042-fix-thing.patch` — the slug of the whole
summary including its numeric prefix — not `fix-thing.patch`. -/
theorem c3_slug_counterexample :
    ∃ pi, handle_patch ⟨"c3commit1", "00042: Fix thing", "pid3", []⟩ [] = .ok pi
      ∧ pi.number = 42
      ∧ pi.filename = "00042-fix-thing.patch"
      ∧ pi.filename ≠ "fix-thing.patch" :=
  ⟨⟨42, "pid3", "Fix thing", "00042-fix-thing.patch", ""⟩,
   by decide, rfl, rfl, by decide⟩

/-- Claim C3 amended: for a numeric-prefixed commit (summary matching
`^(\d+):` with captured number `n`) with no `NNNNN-*.patch` file in the
current directory, the resolver yields number `n` and the file name
`slugify(summary) + ".patch"` — the slug of the full summary (lower-cased,
non-`[a-z0-9_-]` runs collapsed to single hyphens, hyphens trimmed), so for
`"00042: Fix thing"` it yields `00042-fix-thing.patch`. -/
theorem c3_slug_amended (c : CommitInput) (existing : List String)
    (pi : PatchInformation) (n : Nat)
    (h : handle_patch c existing = .ok pi)
    (hnum : numColonHead (pypartition (pystrip c.showOutput)).1 = some n)
    (hfilter : existing.filter (matchesNumberGlob n) = []) :
    pi.number = n
    ∧ pi.filename = slugify (pypartition (pystrip c.showOutput)).1 ++ ".patch" := by
  obtain ⟨n2, p2, t, hres, hpi⟩ := handle_patch_ok_shape c existing pi h
  simp only [resolveIdentity, hnum, hfilter, Except.ok.injEq, Prod.mk.injEq] at hres
  subst hpi
  exact ⟨hres.1.symm, by rw [← hres.1, hres.2]⟩

/-- Witness for the amended C3 at the Scenario-B commit. -/
theorem c3_slug_amended_witness :
    ∃ pi, handle_patch ⟨"c3w000001", "00042: Fix thing", "w3pid", []⟩ [] = .ok pi
      ∧ pi.number = 42 ∧ pi.filename = "00042-fix-thing.patch" := by
  have hc : handle_patch ⟨"c3w000001", "00042: Fix thing", "w3pid", []⟩ [] =
      .ok ⟨42, "w3pid", "Fix thing", "00042-fix-thing.patch", ""⟩ := by decide
  have h := c3_slug_amended ⟨"c3w000001", "00042: Fix thing", "w3pid", []⟩ [] _ 42
    hc (by decide) rfl
  exact ⟨_, hc, h.1, h.2.trans (by decide)⟩

/-- Claim C4 as stated is false: the two comment-building rules are swapped
relative to the code.  For the legacy filename-style commit
`"old-fix.patch"` whose body holds a cherry-pick line and `bug 12345 found`,
the number is 12345 but the comment KEEPS the cherry-pick line (the
`.patch` branch only strips the `NNNNN #` boilerplate).  Conversely a
numeric-prefixed commit gets the stripped summary plus the body with
`Co-authored-by:` lines filtered out, not the boilerplate-stripped body. -/
theorem c4_comment_counterexample :
    (∃ pi, handle_patch ⟨"abc123def",
        "old-fix.patch\n\nbug 12345 found\n(cherry picked from commit aaaaaaaaaaaaaaaaaaaaaaaaaaaaaaaaaaaaaaaa)",
        "pidL", []⟩ [] = .ok pi
      ∧ pi.number = 12345
      ∧ pi.comment = "bug 12345 found\n(cherry picked from commit aaaaaaaaaaaaaaaaaaaaaaaaaaaaaaaaaaaaaaaa)"
      ∧ (splitlines pi.comment).any isCherryPickedLine = true)
    ∧ (∃ pi, handle_patch ⟨"ffffff111",
        "00055: Do it\n\nCo-authored-by: Someone <s@x>\nDetails here",
        "pidN", []⟩ [] = .ok pi
      ∧ pi.comment = "Do it\n\nDetails here"
      ∧ pi.comment ≠ pystrip (removePre
          (pystrip "\nCo-authored-by: Someone <s@x>\nDetails here")
          (pad5 55 ++ " #\n"))) := by
  constructor
  · exact ⟨⟨12345, "pidL",
      "bug 12345 found\n(cherry picked from commit aaaaaaaaaaaaaaaaaaaaaaaaaaaaaaaaaaaaaaaa)",
      "old-fix.patch", ""⟩, by decide, rfl, rfl, by decide⟩
  · exact ⟨⟨55, "pidN", "Do it\n\nDetails here", "00055-do-it.patch", ""⟩,
      by decide, rfl, by decide⟩

/-- Claim C4 amended: the comment of a produced `PatchInformation` is built
per summary style with the branches the code actually has — for a summary
ending in `.patch` (legacy filename style) it is the stripped body with the
`NNNNN #` boilerplate prefix removed when present; for any other summary
(numeric-prefixed style) it is the summary with its `NNNNN:` prefix
stripped, followed by the body lines with `Co-authored-by:` lines and
`(cherry picked from commit <40 chars>)` lines filtered out. -/
theorem c4_comment_branches (c : CommitInput) (existing : List String)
    (pi : PatchInformation) (h : handle_patch c existing = .ok pi) :
    (strEnds (pypartition (pystrip c.showOutput)).1 ".patch" = true →
      pi.comment = pystrip (removePre
        (pystrip (pypartition (pystrip c.showOutput)).2)
        (pad5 pi.number ++ " #\n")))
    ∧ (strEnds (pypartition (pystrip c.showOutput)).1 ".patch" = false →
      pi.comment = pystrip (strJoinNL
        (stripNumColon (pypartition (pystrip c.showOutput)).1
          :: filterBodyLines (splitlines (pypartition (pystrip c.showOutput)).2)))) := by
  obtain ⟨n, p, t, hres, hpi⟩ := handle_patch_ok_shape c existing pi h
  subst hpi
  constructor
  · intro hend
    simp [buildComment, hend]
  · intro hend
    simp [buildComment, hend]

/-- Witness for the amended C4: a legacy-style commit whose body carries the
`NNNNN #` boilerplate gets exactly the boilerplate-stripped body. -/
theorem c4_comment_branches_witness :
    ∃ pi, handle_patch ⟨"w4legacy1",
        "old-fix.patch\n\n12345 #\nReal rationale", "w4pid", []⟩ [] = .ok pi
      ∧ pi.comment = pystrip (removePre
          (pystrip (pypartition (pystrip
            "old-fix.patch\n\n12345 #\nReal rationale")).2)
          (pad5 pi.number ++ " #\n"))
      ∧ pi.comment = "Real rationale" := by
  have hc : handle_patch ⟨"w4legacy1",
      "old-fix.patch\n\n12345 #\nReal rationale", "w4pid", []⟩ [] =
      .ok ⟨12345, "w4pid", "Real rationale", "old-fix.patch", ""⟩ := by decide
  have h := (c4_comment_branches _ [] _ hc).1 (by decide)
  exact ⟨_, hc, h, by decide⟩

/-- Claim C7 as stated is false: an import run over two commits that both
carry the numeric prefix `00190:` completes successfully and produces two
`PatchInformation` records with the same number — the engine never checks
uniqueness. -/
theorem c7_duplicate_numbers_run :
    ∃ ps, importRun
        [⟨"dupnewer1", "00190: Fix B", "pidB", []⟩,
         ⟨"dupolder1", "00190: Fix A", "pidA", []⟩] [] = .ok ps
      ∧ ps.map PatchInformation.number = [190, 190]
      ∧ ¬ List.Pairwise (fun a b => a ≠ b) (ps.map PatchInformation.number) := by
  refine ⟨[⟨190, "pidA", "Fix A", "00190-fix-a.patch", ""⟩,
           ⟨190, "pidB", "Fix B", "00190-fix-b.patch", ""⟩],
    by decide, by decide, by decide⟩

/-- Claim C7 amended: the import run performs no uniqueness check — each
record's number is exactly the number resolved from its commit, taken in
chronological (oldest-first) order, so the produced numbers are pairwise
distinct if (and only if) the commits of the range resolve to pairwise
distinct numbers. -/
theorem c7_unique_numbers_amended (log : List CommitInput)
    (existing : List String) (ps : List PatchInformation)
    (h : importRun log existing = .ok ps) :
    ps.map PatchInformation.number
        = log.reverse.map (fun c => resolveNumberD c existing)
    ∧ ((log.reverse.map (fun c => resolveNumberD c existing)).Pairwise (· ≠ ·) →
        (ps.map PatchInformation.number).Pairwise (· ≠ ·)) := by
  have hmap := runPatches_numbers existing log.reverse ps h
  exact ⟨hmap, fun hp => hmap ▸ hp⟩

/-- Witness for the amended C7: a run over commits with distinct numbers
has pairwise distinct record numbers. -/
theorem c7_unique_numbers_amended_witness :
    ∃ ps, importRun
        [⟨"w7newer01", "00201: B", "q2", []⟩,
         ⟨"w7older01", "00200: A", "q1", []⟩] [] = .ok ps
      ∧ (ps.map PatchInformation.number).Pairwise (· ≠ ·) := by
  have hc : importRun
      [⟨"w7newer01", "00201: B", "q2", []⟩,
       ⟨"w7older01", "00200: A", "q1", []⟩] [] =
      .ok [⟨200, "q1", "A", "00200-a.patch", ""⟩,
           ⟨201, "q2", "B", "00201-b.patch", ""⟩] := by decide
  have h := c7_unique_numbers_amended _ [] _ hc
  exact ⟨_, hc, h.2 (by decide)⟩

/-- Claim C8 as stated is false: the per-patch blocks are written in
chronological commit order, not by ascending patch number.  A range whose
older commit is `00012:` and newer commit is `00007:` yields the block
numbers `[12, 7]`, which is not ascending. -/
theorem c8_order_counterexample :
    ∃ ps, importRun
        [⟨"ordnewer1", "00007: Seven", "p7", []⟩,
         ⟨"ordolder1", "00012: Twelve", "p12", []⟩] [] = .ok ps
      ∧ ps.map PatchInformation.number = [12, 7]
      ∧ patchesSection ps =
          sectionFor ⟨12, "p12", "Twelve", "00012-twelve.patch", ""⟩
            ++ (sectionFor ⟨7, "p7", "Seven", "00007-seven.patch", ""⟩ ++ "")
      ∧ ¬ List.Pairwise (· ≤ ·) (ps.map PatchInformation.number) := by
  refine ⟨[⟨12, "p12", "Twelve", "00012-twelve.patch", ""⟩,
           ⟨7, "p7", "Seven", "00007-seven.patch", ""⟩],
    by decide, by decide, rfl, by decide⟩

/-- Claim C8 amended: the spec section concatenates the per-patch blocks in
the order the records were produced, which is chronological (oldest-first)
commit order; the blocks are in ascending-number order exactly when the
commits' resolved numbers are ascending in that chronological order. -/
theorem c8_order_amended (log : List CommitInput) (existing : List String)
    (ps : List PatchInformation) (h : importRun log existing = .ok ps) :
    patchesSection ps = concatAll (ps.map sectionFor)
    ∧ ps.map PatchInformation.number
        = log.reverse.map (fun c => resolveNumberD c existing)
    ∧ ((log.reverse.map (fun c => resolveNumberD c existing)).Pairwise (· ≤ ·) →
        (ps.map PatchInformation.number).Pairwise (· ≤ ·)) := by
  have hmap := runPatches_numbers existing log.reverse ps h
  exact ⟨rfl, hmap, fun hp => hmap ▸ hp⟩

/-- Witness for the amended C8: with chronologically ascending numbers the
written blocks are in ascending order. -/
theorem c8_order_amended_witness :
    ∃ ps, importRun
        [⟨"w8newer01", "00302: B", "r2", []⟩,
         ⟨"w8older01", "00301: A", "r1", []⟩] [] = .ok ps
      ∧ (ps.map PatchInformation.number).Pairwise (· ≤ ·) := by
  have hc : importRun
      [⟨"w8newer01", "00302: B", "r2", []⟩,
       ⟨"w8older01", "00301: A", "r1", []⟩] [] =
      .ok [⟨301, "r1", "A", "00301-a.patch", ""⟩,
           ⟨302, "r2", "B", "00302-b.patch", ""⟩] := by decide
  have h := c8_order_amended _ [] _ hc
  exact ⟨_, hc, h.2.2 (by decide)⟩

/-! ## Lemmas for the export engine claims -/

lemma rjust5_length (s : String) : 5 ≤ (rjust5 s).length := by
  by_cases h : s.length ≥ 5
  · rw [rjust5, if_pos h]; exact h
  · rw [rjust5, if_neg h, String.length_append, String.length_mk,
      List.length_replicate]
    omega

/-- Claim C5 as stated is false: the code's amend condition is
`^[0-9]{5}:` — ANY five digits and a colon — not the patch's own number.
With patch number `5` (padded `00005`) and a commit message starting
`00007:`, the message does not start with `00005:` (so the claim requires
an amend) but the engine leaves it untouched. -/
theorem c5_amend_counterexample :
    amendMessage "5" "00007: fix\n" = "00007: fix\n"
    ∧ rjust5 "5" = "00005"
    ∧ strStarts "00007: fix\n" "00005:" = false := by decide

/-- Claim C5 amended: after each successful apply, the commit message is
amended (prepending the zero-padded directive number and `": "`) if and
only if it does not already start with five digits followed by a colon —
any five-digit number, not necessarily that patch's; and the tip commit's
message is the only one the engine ever rewrites. -/
theorem c5_amend_rule (pn m : String) :
    (amendMessage pn m = m ↔ startsWithFiveDigitsColon m = true)
    ∧ (startsWithFiveDigitsColon m = false →
        amendMessage pn m = rjust5 pn ++ ": " ++ m)
    ∧ (∀ (aid : String) (nc hist : List Commit) (t : Commit) (r : List Commit),
        nc ++ hist = t :: r →
        (applyAndAmend pn nc aid hist).map Commit.message
          = amendMessage pn t.message :: r.map Commit.message) := by
  refine ⟨⟨?_, ?_⟩, ?_, ?_⟩
  · intro h
    by_cases hs : startsWithFiveDigitsColon m
    · exact hs
    · exfalso
      rw [amendMessage, if_neg (by simp [hs])] at h
      have hlen := congrArg String.length h
      rw [String.length_append, String.length_append] at hlen
      have h2 : (": ").length = 2 := rfl
      have h5 := rjust5_length pn
      omega
  · intro hs
    simp [amendMessage, hs]
  · intro hs
    simp [amendMessage, hs]
  · intro aid nc hist t r hsplit
    simp only [applyAndAmend, hsplit]
    by_cases ht : startsWithFiveDigitsColon t.message
    · simp [amendMessage, ht]
    · simp [amendMessage, ht]

/-- Witness for the amended C5: a message without a five-digit prefix gets
the padded directive number prepended, and only the tip message changes. -/
theorem c5_amend_rule_witness :
    amendMessage "7" "needs prefix\n" = "00007: needs prefix\n"
    ∧ (applyAndAmend "7" [⟨"n1", "needs prefix\n"⟩] "amended1"
        [⟨"b1", "base"⟩]).map Commit.message
      = ["00007: needs prefix\n", "base"] := by
  have h := c5_amend_rule "7" "needs prefix\n"
  have h1 := (h.2.1 (by decide)).trans (by decide :
    rjust5 "7" ++ ": " ++ "needs prefix\n" = "00007: needs prefix\n")
  have h2 := h.2.2 "amended1" [⟨"n1", "needs prefix\n"⟩] [⟨"b1", "base"⟩]
    ⟨"n1", "needs prefix\n"⟩ [⟨"b1", "base"⟩] rfl
  exact ⟨h1, h2.trans (by rw [h1]; decide)⟩

/-- Claim C6: evaluation of the directive parser at the claim's own
examples.  `Patch5:` does not yield number 5 — the regex
`^Patch[0-9]{3}` finds no match and the engine exits with
"Patch number is missing."; `Patch18912:` does not yield 18912 — exactly
three digits are captured, giving number string `189` (while the file
reference is extracted in full).  This contradicts the claimed extraction
of any 1-99999 number and the tool's own docstring (`PatchNNNNN`). -/
theorem c6_directive_number_eval :
    parsePatchLine "Patch5: foo.patch" = some (.error "Patch number is missing.")
    ∧ parsePatchLine "Patch18912: foo.patch" = some (.ok ("189", "foo.patch"))
    ∧ collectPatches ["Patch5: foo.patch"] = .error "Patch number is missing."
    ∧ collectPatches ["Patch18912: foo.patch"] = .ok [("189", "foo.patch")]
    ∧ collectPatches ["Patch189: a.patch", "Patch274: b.patch"]
        = .ok [("189", "a.patch"), ("274", "b.patch")] := by decide

/-- Claim C9: during export, if the apply (plus message fix-up) left the
recorded pre-apply tip different from the new tip's first parent — which is
what happens when `git am` created more than one commit — the engine fails
fatally with the multiple-commits error and the error carries the
repository exactly in its post-apply/amend state (no rollback); if exactly
one commit was created, the loop proceeds to the next patch on that state. -/
theorem c9_one_patch_one_commit (p : PatchApply) (rest : List PatchApply)
    (hist nc : List Commit) (ham : p.amResult = some nc) :
    (∀ c, nc = [c] →
      exportLoop (p :: rest) hist
        = exportLoop rest (applyAndAmend p.patch_number nc p.amendId hist))
    ∧ (∀ c1 c2 t, nc = c1 :: c2 :: t → c2.id ≠ tipId hist →
      exportLoop (p :: rest) hist
        = .error (.multiCommitError,
            applyAndAmend p.patch_number nc p.amendId hist)) := by
  constructor
  · intro c hc
    subst hc
    have hpar : parentId (applyAndAmend p.patch_number [c] p.amendId hist)
        = tipId hist := by
      simp only [applyAndAmend, List.singleton_append]
      split <;> rfl
    simp [exportLoop, exportStep, ham, hpar]
  · intro c1 c2 t hc hne
    subst hc
    have hpar : parentId
        (applyAndAmend p.patch_number (c1 :: c2 :: t) p.amendId hist)
        = c2.id := by
      simp only [applyAndAmend, List.cons_append]
      split <;> rfl
    have hcond : tipId hist ≠ parentId
        (applyAndAmend p.patch_number (c1 :: c2 :: t) p.amendId hist) := by
      rw [hpar]
      exact fun hh => hne hh.symm
    simp [exportLoop, exportStep, ham, hcond]

/-- Witness for C9: a single-commit apply proceeds (and succeeds when it is
the last patch); a two-commit apply fails with the multiple-commits error
carrying the post-amend repository state. -/
theorem c9_one_patch_one_commit_witness :
    exportLoop [⟨"007", some [⟨"n1", "00007: seven\n"⟩], "amid1"⟩]
        [⟨"base1", "base commit"⟩]
      = .ok [⟨"n1", "00007: seven\n"⟩, ⟨"base1", "base commit"⟩]
    ∧ exportLoop [⟨"008", some [⟨"m1", "x\n"⟩, ⟨"m2", "y\n"⟩], "amid2"⟩]
        [⟨"base2", "base"⟩]
      = .error (.multiCommitError,
          [⟨"amid2", "00008: x\n"⟩, ⟨"m2", "y\n"⟩, ⟨"base2", "base"⟩]) := by
  have h1 := (c9_one_patch_one_commit
    ⟨"007", some [⟨"n1", "00007: seven\n"⟩], "amid1"⟩ []
    [⟨"base1", "base commit"⟩] [⟨"n1", "00007: seven\n"⟩] rfl).1
    ⟨"n1", "00007: seven\n"⟩ rfl
  have h2 := (c9_one_patch_one_commit
    ⟨"008", some [⟨"m1", "x\n"⟩, ⟨"m2", "y\n"⟩], "amid2"⟩ []
    [⟨"base2", "base"⟩] [⟨"m1", "x\n"⟩, ⟨"m2", "y\n"⟩] rfl).2
    ⟨"m1", "x\n"⟩ ⟨"m2", "y\n"⟩ [] rfl (by decide)
  exact ⟨h1.trans (by decide), h2.trans (by decide)⟩

/-! ## Lemmas for the percent-escaping claim -/

lemma escPercChars_flatMap (l : List Char) :
    escPercChars l = l.flatMap (fun c => if c = '%' then ['%', '%'] else [c]) := by
  induction l with
  | nil => rfl
  | cons c r ih =>
      by_cases hc : c = '%' <;> simp [escPercChars, hc, ih]

lemma escPercChars_length (l : List Char) :
    (escPercChars l).length = l.length + l.count '%' := by
  induction l with
  | nil => rfl
  | cons c r ih =>
      by_cases hc : c = '%' <;>
        simp [escPercChars, hc, ih, List.count_cons] <;> omega

/-- Claim C10: each per-patch block splices the `#`-prefixed comment block
into the template with every `%` character doubled to `%%` (RPM macro
escaping); consequently a comment containing `%` is not reproduced
character-for-character in the written spec section. -/
theorem c10_percent_escaping (r : PatchInformation) (s : String)
    (htr : r.trailer = "") :
    sectionFor r = "\n# " ++ pad5 r.number ++ " # " ++ r.patch_id ++ "\n"
        ++ escapePercents (commentLines r.comment)
        ++ "\nPatch" ++ toString r.number ++ ": " ++ r.filename ++ "\n"
    ∧ (escapePercents s).data
        = s.data.flatMap (fun c => if c = '%' then ['%', '%'] else [c])
    ∧ ('%' ∈ s.data → escapePercents s ≠ s) := by
  refine ⟨by simp [sectionFor, htr], ?_, ?_⟩
  · have h2 : (escapePercents s).data = escPercChars s.data := rfl
    rw [h2, escPercChars_flatMap]
  · intro hmem heq
    have hd : escPercChars s.data = s.data := congrArg String.data heq
    have hl := escPercChars_length s.data
    rw [hd] at hl
    have hc : 0 < s.data.count '%' := List.count_pos_iff.mpr hmem
    omega

/-- Witness for C10: a comment with `%global` is written `%%global` in the
block, and the escaped comment differs from the raw one. -/
theorem c10_percent_escaping_witness :
    sectionFor ⟨1, "deadbeef", "uses %global x", "a.patch", ""⟩
      = "\n# 00001 # deadbeef\n# uses %%global x\nPatch1: a.patch\n"
    ∧ escapePercents "# uses %global x" ≠ "# uses %global x" := by
  have h := c10_percent_escaping ⟨1, "deadbeef", "uses %global x", "a.patch", ""⟩
    "# uses %global x" rfl
  exact ⟨h.1.trans (by decide), h.2.2 (by decide)⟩
